import Mathlib

/-!
# Bancada_IoT: home-automation controller (ESP32, FreeRTOS, MQTT)

Shallow embedding of `src/main.cpp`.  The global variables of the program
(`estadoAtual`, the notification word of the task `tarefaEstado`, the output
pins) are the fields of `Sistema`; one iteration of the body of each task's
`while (1)` loop is a function on `Sistema` that also returns the calls made
to the external collaborators (FreeRTOS notifications, MQTT client, delays).
Results of external calls (WiFi status, broker connect, sensor readings) are
inputs of the iteration.
-/

namespace Bancada

/-! ## Data model -/

/-- The phases of the system: `EstadoSistema`, main.cpp lines 43-49. -/
inductive EstadoSistema
  | ESTADO_INICIANDO
  | ESTADO_WIFI
  | ESTADO_MQTT
  | ESTADO_EXECUTANDO
  | ESTADO_ERRO
  deriving DecidableEq, Repr

open EstadoSistema

/-- Event bit `EVT_WIFI_OK`, main.cpp line 54. -/
def EVT_WIFI_OK : Nat := 1 <<< 0
/-- Event bit `EVT_MQTT_OK`, main.cpp line 55. -/
def EVT_MQTT_OK : Nat := 1 <<< 1
/-- Event bit `EVT_MOVIMENTO`, main.cpp line 56. -/
def EVT_MOVIMENTO : Nat := 1 <<< 2
/-- Event bit `EVT_GAS`, main.cpp line 57. -/
def EVT_GAS : Nat := 1 <<< 3

/-- Pin numbers, main.cpp lines 19-27. -/
def led_sala : Nat := 2
/-- Kitchen light pin. -/
def led_cozinha : Nat := 4
/-- Bedroom light pin. -/
def led_quarto : Nat := 5
/-- Clothes-line motor pin. -/
def motor_varal : Nat := 16
/-- Buzzer pin. -/
def buzzer : Nat := 18
/-- PIR input pin. -/
def pir_pin : Nat := 19
/-- Gas sensor (MQ-2) analog input pin. -/
def mq2_pin : Nat := 34

/-- The tasks that own a handle, main.cpp lines 60-67 (those that are notified). -/
inductive Tarefa
  | tarefaEstado
  | tarefaWifi
  | tarefaMQTT
  deriving DecidableEq, Repr

/-- The two FreeRTOS notify actions the program uses. -/
inductive eNotifyAction
  | eNoAction
  | eSetBits
  deriving DecidableEq, Repr

/-- Calls to the external collaborators, in program order, that one iteration
of a task makes.  Strings are the C string literals of the source. -/
inductive Chamada
  | xTaskNotify (alvo : Tarefa) (valor : Nat) (acao : eNotifyAction)
  | wifiBegin (ssid senha : String)
  | mqttConnect (id : String)
  | mqttSubscribe (topico : String)
  | mqttPublish (topico payload : String)
  | mqttLoop
  | vTaskDelay (ms : Nat)
  deriving DecidableEq, Repr

/-- The global state of the program: `estadoAtual` (line 51), the notification
value and notification-pending flag of the task `tarefaEstado` (its FreeRTOS
inbox), and the level of every output pin. -/
structure Sistema where
  estadoAtual : EstadoSistema
  notifValor : Nat
  notifPendente : Bool
  gpio : Nat → Bool

/-- The state at power-on: `estadoAtual = ESTADO_INICIANDO`, empty inbox,
all outputs low. -/
def inicial : Sistema :=
  { estadoAtual := ESTADO_INICIANDO, notifValor := 0, notifPendente := false,
    gpio := fun _ => false }

/-- The call `digitalWrite(pin, val)`. -/
def digitalWrite (pin : Nat) (val : Bool) (s : Sistema) : Sistema :=
  { s with gpio := fun p => if p = pin then val else s.gpio p }

/-- The effect on the receiving task of `xTaskNotify(tarefaEstadoHandle, valor, acao)`:
the notification becomes pending, and with `eSetBits` the value is or-ed into
the 32-bit notification word. -/
def notificaEstado (valor : Nat) (acao : eNotifyAction) (s : Sistema) : Sistema :=
  match acao with
  | eNotifyAction.eNoAction => { s with notifPendente := true }
  | eNotifyAction.eSetBits =>
      { s with notifValor := (s.notifValor ||| valor) % 2 ^ 32, notifPendente := true }

/-! ## tarefaEstado (main.cpp lines 71-107) -/

/-- The `switch (estadoAtual)` of `tarefaEstado`, lines 78-105, executed with
the drained event word `eventos`. -/
def tarefaEstadoSwitch (eventos : Nat) (s : Sistema) : Sistema × List Chamada :=
  match s.estadoAtual with
  | ESTADO_INICIANDO =>
      ({ s with estadoAtual := ESTADO_WIFI },
        [Chamada.xTaskNotify Tarefa.tarefaWifi 0 eNotifyAction.eNoAction])
  | ESTADO_WIFI =>
      if eventos &&& EVT_WIFI_OK ≠ 0 then
        ({ s with estadoAtual := ESTADO_MQTT },
          [Chamada.xTaskNotify Tarefa.tarefaMQTT 0 eNotifyAction.eNoAction])
      else (s, [])
  | ESTADO_MQTT =>
      if eventos &&& EVT_MQTT_OK ≠ 0 then
        ({ s with estadoAtual := ESTADO_EXECUTANDO }, [])
      else (s, [])
  | ESTADO_ERRO =>
      ({ s with estadoAtual := ESTADO_WIFI },
        [Chamada.xTaskNotify Tarefa.tarefaWifi 0 eNotifyAction.eNoAction])
  | ESTADO_EXECUTANDO => (s, [])

/-- One iteration of the loop of `tarefaEstado`, lines 76-105:
`xTaskNotifyWait(0, 0xFFFFFFFF, &eventos, portMAX_DELAY)` blocks (`none`)
while no notification is pending; otherwise it reads the notification word,
clears all of its bits and the pending flag, and the switch runs. -/
def tarefaEstadoIter (s : Sistema) : Option (Sistema × List Chamada) :=
  if s.notifPendente then
    let eventos := s.notifValor
    some (tarefaEstadoSwitch eventos
      { s with notifValor := s.notifValor &&& (2 ^ 32 - 1 - 0xFFFFFFFF), notifPendente := false })
  else none

/-- A run of the state machine alone: the switch executed once for each
drained event word of `evs`, in order; returns the final state and all the
calls made. -/
def despertares : List Nat → Sistema → Sistema × List Chamada
  | [], s => (s, [])
  | ev :: evs, s =>
      let r := tarefaEstadoSwitch ev s
      let r2 := despertares evs r.1
      (r2.1, r.2 ++ r2.2)

/-- The phases after each wake of a run of the state machine alone, starting
with the phase before the first wake. -/
def fases : List Nat → Sistema → List EstadoSistema
  | [], s => [s.estadoAtual]
  | ev :: evs, s => s.estadoAtual :: fases evs (tarefaEstadoSwitch ev s).1

/-! ## tarefaWifi (main.cpp lines 110-124) -/

/-- The status `WL_CONNECTED` of the WiFi library (`wl_status_t`). -/
def WL_CONNECTED : Nat := 3

/-- One iteration of the loop of `tarefaWifi`, lines 113-122; `resultado` is
what `WiFi.waitForConnectResult()` returns. -/
def tarefaWifiIter (resultado : Nat) (s : Sistema) : Sistema × List Chamada :=
  if resultado = WL_CONNECTED then
    (notificaEstado EVT_WIFI_OK eNotifyAction.eSetBits s,
      [Chamada.wifiBegin "Wokwi-GUEST" "",
       Chamada.xTaskNotify Tarefa.tarefaEstado EVT_WIFI_OK eNotifyAction.eSetBits,
       Chamada.vTaskDelay 5000])
  else
    ({ s with estadoAtual := ESTADO_ERRO },
      [Chamada.wifiBegin "Wokwi-GUEST" "", Chamada.vTaskDelay 5000])

/-! ## callbackMQTT and tarefaMQTT (main.cpp lines 127-154) -/

/-- The message built by the loop of lines 128-132: the payload bytes
appended one by one, as characters, to an empty `String`.  The value stands
for the `len` characters of the buffer of the Arduino `String` (a NUL byte of
the payload is appended like any other). -/
def mensagemDe (payload : List Char) : String :=
  payload.foldl (fun m c => m.push c) ""

/-- The C string held in a character buffer: the characters before the
first NUL (all of them when there is none). -/
def ateNul (cs : List Char) : List Char :=
  cs.takeWhile (fun c => decide (c ≠ Char.ofNat 0))

/-- The comparison `mensagem == "..."` of an Arduino `String` with a string
literal, `String::equals(const char*)`: an empty `String` equals only the
empty C string; otherwise the result is that of `strcmp` on the buffer, which
compares the characters before the first NUL. -/
def arduinoEquals (m : String) (literal : String) : Bool :=
  if m.data.length = 0 then decide (ateNul literal.data = [])
  else decide (ateNul m.data = ateNul literal.data)

/-- The handler `callbackMQTT(topico, payload, tamanho)`, lines 127-136;
`payload` is the `tamanho` bytes of the message (any byte, NUL included) and
`topico` the C string of the topic. -/
def callbackMQTT (topico : String) (payload : List Char) (s : Sistema) : Sistema :=
  let mensagem := mensagemDe payload
  let s1 := if topico = "casa/luz/sala" then
      digitalWrite led_sala (arduinoEquals mensagem "ON") s else s
  let s2 := if topico = "casa/luz,cozinha" then
      digitalWrite led_cozinha (arduinoEquals mensagem "ON") s1 else s1
  if topico = "casa/luz/quarto" then
    digitalWrite led_quarto (arduinoEquals mensagem "ON") s2 else s2

/-- The topic filter passed to `clienteMQTT.subscribe`, line 147. -/
def filtroAssinado : String := "casa/luz/#"

/-- One iteration of the loop of `tarefaMQTT`, lines 144-152.  `conectado` is
what `clienteMQTT.connected()` returns, `connectOk` what `connect` returns
when it is called, and `entrada` the inbound message (if any) that
`clienteMQTT.loop()` hands to the handler. -/
def tarefaMQTTIter (conectado connectOk : Bool) (entrada : Option (String × List Char))
    (s : Sistema) : Sistema × List Chamada :=
  let r1 : Sistema × List Chamada :=
    if !conectado then
      if connectOk then
        (notificaEstado EVT_MQTT_OK eNotifyAction.eSetBits s,
          [Chamada.mqttConnect "ESP32-CASA", Chamada.mqttSubscribe filtroAssinado,
           Chamada.xTaskNotify Tarefa.tarefaEstado EVT_MQTT_OK eNotifyAction.eSetBits])
      else (s, [Chamada.mqttConnect "ESP32-CASA"])
    else (s, [])
  let s2 := match entrada with
    | some (topico, payload) => callbackMQTT topico payload r1.1
    | none => r1.1
  (s2, r1.2 ++ [Chamada.mqttLoop, Chamada.vTaskDelay 100])

/-- The levels of an MQTT topic or topic filter: the text split at each `/`. -/
def niveis : List Char → List (List Char)
  | [] => [[]]
  | c :: cs =>
      if c = '/' then [] :: niveis cs
      else
        match niveis cs with
        | [] => [[c]]
        | n :: ns => (c :: n) :: ns

/-- MQTT matching of topic levels against filter levels: a final `#` matches
every remaining level (also none), `+` matches one level, any other level
matches itself. -/
def casaNiveis : List (List Char) → List (List Char) → Bool
  | [['#']], _ => true
  | [], [] => true
  | f :: fs, t :: ts => (f = ['+'] || f = t) && casaNiveis fs ts
  | _, _ => false

/-- Whether the broker delivers a message published on `topico` to a session
subscribed with `filtro`. -/
def casaFiltro (filtro topico : String) : Bool :=
  casaNiveis (niveis filtro.data) (niveis topico.data)

/-! ## Sensor workers (main.cpp lines 157-202) -/

/-- A `float` returned by the sensor driver: a finite value other than
negative zero, given by its exact value (every finite float is a rational
number); the float negative zero; or the NaN sentinel of a failed read. -/
inductive Leitura
  | valor (q : ℚ)
  | menosZero
  | nan

/-- The C comparison `x < k` of a float with a constant: negative zero
compares as zero, and the result is false on NaN. -/
def Leitura.menorQue (x : Leitura) (k : ℚ) : Bool :=
  match x with
  | Leitura.valor q => decide (q < k)
  | Leitura.menosZero => decide (0 < k)
  | Leitura.nan => false

/-- Rounding of a non-negative rational to the nearest natural number, ties
to even (the rounding of `printf`). -/
def arredonda (x : ℚ) : Nat :=
  let f := ⌊x⌋.toNat
  let r := x - f
  if r < 1 / 2 then f
  else if 1 / 2 < r then f + 1
  else if f % 2 = 0 then f else f + 1

/-- The text that the conversion `%.1f` of `sprintf` produces: the sign
(also for negative zero and for a negative value that rounds to zero), the
value rounded to one decimal digit. -/
def fmt1 (x : Leitura) : String :=
  match x with
  | Leitura.nan => "nan"
  | Leitura.menosZero => "-0.0"
  | Leitura.valor q =>
      let n := arredonda (|q| * 10)
      (if q < 0 then "-" else "") ++ toString (n / 10) ++ "." ++ toString (n % 10)

/-- The text written by the `sprintf` of line 170. -/
def payloadClima (temperatura umidade : Leitura) : String :=
  "\x7b\"temp\": " ++ fmt1 temperatura ++ ", \"umi\":" ++ fmt1 umidade ++ "\x7d"

/-- One iteration of the loop of `tarefaClima`, lines 160-173; `umidade` and
`temperatura` are what `dht.readHumidity()` and `dht.readTemperature()`
return. -/
def tarefaClimaIter (umidade temperatura : Leitura) (s : Sistema) :
    Sistema × List Chamada :=
  let s1 := if umidade.menorQue 60 then digitalWrite motor_varal true s
    else digitalWrite motor_varal false s
  (s1, [Chamada.mqttPublish "casa/clima" (payloadClima temperatura umidade),
        Chamada.vTaskDelay 5000])

/-- One iteration of the loop of `tarefaPIR`, lines 180-185; `pir` is whether
`digitalRead(pir_pin)` is non-zero. -/
def tarefaPIRIter (pir : Bool) (s : Sistema) : Sistema × List Chamada :=
  let s1 := if pir then
      digitalWrite led_quarto true (digitalWrite led_cozinha true (digitalWrite led_sala true s))
    else s
  (s1, [Chamada.vTaskDelay 200])

/-- One iteration of the loop of `tarefaGas`, lines 192-200; `gas` is what
`analogRead(mq2_pin)` returns. -/
def tarefaGasIter (gas : Int) (s : Sistema) : Sistema × List Chamada :=
  if gas > 2000 then
    (digitalWrite buzzer true s,
      [Chamada.mqttPublish "casa/gas/alerta" "GAS DETECTADO", Chamada.vTaskDelay 1000])
  else
    (digitalWrite buzzer false s, [Chamada.vTaskDelay 1000])

/-- A run of the gas worker alone: one iteration for each reading, in order. -/
def gasExec : List Int → Sistema → Sistema × List Chamada
  | [], s => (s, [])
  | g :: gs, s =>
      let r := tarefaGasIter g s
      let r2 := gasExec gs r.1
      (r2.1, r.2 ++ r2.2)

/-- The messages published among the calls of an iteration. -/
def publicacoes : List Chamada → List (String × String)
  | [] => []
  | Chamada.mqttPublish topico payload :: cs => (topico, payload) :: publicacoes cs
  | _ :: cs => publicacoes cs

/-! ## The whole system -/

/-- The steps of the system: the notification that ends `setup` (line 223)
and one loop iteration of each task created by `setup` (lines 216-221), with
the results of the external calls of that iteration. -/
inductive Passo
  | setupNotifica
  | estado
  | wifi (resultado : Nat)
  | mqtt (conectado connectOk : Bool) (entrada : Option (String × List Char))
  | clima (umidade temperatura : Leitura)
  | pir (leitura : Bool)
  | gas (leitura : Int)

/-- The step function of the system; `none` when the task is blocked. -/
def passo : Passo → Sistema → Option (Sistema × List Chamada)
  | Passo.setupNotifica, s =>
      some (notificaEstado 0 eNotifyAction.eNoAction s,
        [Chamada.xTaskNotify Tarefa.tarefaEstado 0 eNotifyAction.eNoAction])
  | Passo.estado, s => tarefaEstadoIter s
  | Passo.wifi resultado, s => some (tarefaWifiIter resultado s)
  | Passo.mqtt conectado connectOk entrada, s =>
      some (tarefaMQTTIter conectado connectOk entrada s)
  | Passo.clima umidade temperatura, s => some (tarefaClimaIter umidade temperatura s)
  | Passo.pir leitura, s => some (tarefaPIRIter leitura s)
  | Passo.gas leitura, s => some (tarefaGasIter leitura s)

/-- The system run along a list of steps from a state; `none` when a step of
the list is blocked. -/
def executa : List Passo → Sistema → Option Sistema
  | [], s => some s
  | p :: ps, s =>
      match passo p s with
      | some r => executa ps r.1
      | none => none

/-- The states the system can be in: those that some list of steps reaches
from the power-on state. -/
def Alcancavel (s : Sistema) : Prop :=
  ∃ ps : List Passo, executa ps inicial = some s

/-- The state after `setup` and the first wake of `tarefaEstado`:
phase `ESTADO_WIFI`, empty inbox, all outputs low. -/
def aposPrimeiroDespertar : Sistema :=
  { estadoAtual := ESTADO_WIFI, notifValor := 0, notifPendente := false,
    gpio := fun _ => false }

/-- The edges of the transition table of section 4.1 that change the phase. -/
def arestaTabela (a b : EstadoSistema) : Bool :=
  match a, b with
  | ESTADO_INICIANDO, ESTADO_WIFI => true
  | ESTADO_WIFI, ESTADO_MQTT => true
  | ESTADO_MQTT, ESTADO_EXECUTANDO => true
  | ESTADO_ERRO, ESTADO_WIFI => true
  | _, _ => false

/-- The forward edges Starting, AwaitingNetwork, AwaitingBroker, Operational. -/
def arestaAvanco (a b : EstadoSistema) : Bool :=
  match a, b with
  | ESTADO_INICIANDO, ESTADO_WIFI => true
  | ESTADO_WIFI, ESTADO_MQTT => true
  | ESTADO_MQTT, ESTADO_EXECUTANDO => true
  | _, _ => false

/-! ## The transition table of the specification (section 4.1) -/

/-- The directives of the table of section 4.1. -/
inductive Diretiva
  | beginNetworkAssociation
  | beginBrokerSession
  deriving DecidableEq, Repr

/-- The table of section 4.1 of the specification, row by row: current phase,
whether NetworkReady and BrokerReady are in the drained set, and the next
phase with the directive issued (if any). -/
def tabela (fase : EstadoSistema) (networkReady brokerReady : Bool) :
    EstadoSistema × Option Diretiva :=
  match fase, networkReady, brokerReady with
  | ESTADO_INICIANDO, _, _ => (ESTADO_WIFI, some Diretiva.beginNetworkAssociation)
  | ESTADO_WIFI, true, _ => (ESTADO_MQTT, some Diretiva.beginBrokerSession)
  | ESTADO_WIFI, false, _ => (ESTADO_WIFI, none)
  | ESTADO_MQTT, _, true => (ESTADO_EXECUTANDO, none)
  | ESTADO_MQTT, _, false => (ESTADO_MQTT, none)
  | ESTADO_ERRO, _, _ => (ESTADO_WIFI, some Diretiva.beginNetworkAssociation)
  | ESTADO_EXECUTANDO, _, _ => (ESTADO_EXECUTANDO, none)

/-- How a directive of the table is carried out in the program: a
notification of the task that owns the sub-phase. -/
def Diretiva.chamada : Diretiva → Chamada
  | Diretiva.beginNetworkAssociation =>
      Chamada.xTaskNotify Tarefa.tarefaWifi 0 eNotifyAction.eNoAction
  | Diretiva.beginBrokerSession =>
      Chamada.xTaskNotify Tarefa.tarefaMQTT 0 eNotifyAction.eNoAction

/-! ## Decimal text of the specification (section 6, wire topics) -/

/-- The decimal text, with one decimal digit, of the number of tenths `z`:
sign, integer part, point, one digit. -/
def decimal1 (z : Int) : String :=
  (if z < 0 then "-" else "") ++ toString (z.natAbs / 10) ++ "." ++ toString (z.natAbs % 10)

/-- The climate payload as the specification writes it (section 6): keys
`temp` and `humidity`, a single space after each colon; the readings are given
in tenths. -/
def payloadClimaSpec (temp humidity : Int) : String :=
  "\x7b\"temp\": " ++ decimal1 temp ++ ", \"humidity\": " ++ decimal1 humidity ++ "\x7d"

/-! ## Helper lemmas -/

theorem land_EVT_WIFI_OK (eventos : Nat) :
    (eventos &&& EVT_WIFI_OK ≠ 0) ↔ eventos.testBit 0 = true := by
  have h : eventos &&& EVT_WIFI_OK = (eventos.testBit 0).toNat * 2 ^ 0 := by
    simpa [EVT_WIFI_OK] using Nat.and_two_pow eventos 0
  rw [h]
  cases eventos.testBit 0 <;> simp

theorem land_EVT_MQTT_OK (eventos : Nat) :
    (eventos &&& EVT_MQTT_OK ≠ 0) ↔ eventos.testBit 1 = true := by
  have h : eventos &&& EVT_MQTT_OK = (eventos.testBit 1).toNat * 2 ^ 1 := by
    simpa [EVT_MQTT_OK] using Nat.and_two_pow eventos 1
  rw [h]
  cases eventos.testBit 1 <;> simp

theorem switch_passo (ev : Nat) (s : Sistema) :
    (s.estadoAtual = ESTADO_INICIANDO
        ∧ (tarefaEstadoSwitch ev s).1.estadoAtual = ESTADO_WIFI)
      ∨ (s.estadoAtual = ESTADO_WIFI
        ∧ ((tarefaEstadoSwitch ev s).1.estadoAtual = ESTADO_WIFI
          ∨ (tarefaEstadoSwitch ev s).1.estadoAtual = ESTADO_MQTT))
      ∨ (s.estadoAtual = ESTADO_MQTT
        ∧ ((tarefaEstadoSwitch ev s).1.estadoAtual = ESTADO_MQTT
          ∨ (tarefaEstadoSwitch ev s).1.estadoAtual = ESTADO_EXECUTANDO))
      ∨ (s.estadoAtual = ESTADO_EXECUTANDO
        ∧ (tarefaEstadoSwitch ev s).1.estadoAtual = ESTADO_EXECUTANDO)
      ∨ (s.estadoAtual = ESTADO_ERRO
        ∧ (tarefaEstadoSwitch ev s).1.estadoAtual = ESTADO_WIFI) := by
  obtain ⟨e, v, p, g⟩ := s
  cases e <;> simp only [tarefaEstadoSwitch] <;> (try split_ifs) <;> simp

theorem switch_aresta (ev : Nat) (s : Sistema) :
    (tarefaEstadoSwitch ev s).1.estadoAtual = s.estadoAtual
      ∨ arestaTabela s.estadoAtual (tarefaEstadoSwitch ev s).1.estadoAtual = true := by
  rcases switch_passo ev s with h | h | h | h | h
  · right; rw [h.1, h.2]; rfl
  · rcases h with ⟨h1, h2 | h2⟩
    · left; rw [h1, h2]
    · right; rw [h1, h2]; rfl
  · rcases h with ⟨h1, h2 | h2⟩
    · left; rw [h1, h2]
    · right; rw [h1, h2]; rfl
  · left; rw [h.1, h.2]
  · right; rw [h.1, h.2]; rfl

/-- From a phase that is neither Starting nor Failed, every phase of a run of
the state machine alone is again neither, and consecutive phases are equal or
joined by a forward edge. -/
theorem fases_depois (evs : List Nat) :
    ∀ s : Sistema, s.estadoAtual ≠ ESTADO_INICIANDO → s.estadoAtual ≠ ESTADO_ERRO →
      List.Chain' (fun a b => a = b ∨ arestaAvanco a b = true) (fases evs s)
        ∧ ∀ p ∈ fases evs s, p ≠ ESTADO_INICIANDO ∧ p ≠ ESTADO_ERRO := by
  induction evs with
  | nil =>
      intro s h1 h2
      simp [fases, h1, h2]
  | cons ev evs ih =>
      intro s h1 h2
      have hstep := switch_passo ev s
      have hn1 : (tarefaEstadoSwitch ev s).1.estadoAtual ≠ ESTADO_INICIANDO := by
        rcases hstep with h | h | h | h | h
        · exact absurd h.1 h1
        · rcases h.2 with h | h <;> rw [h] <;> decide
        · rcases h.2 with h | h <;> rw [h] <;> decide
        · rw [h.2]; decide
        · exact absurd h.1 h2
      have hn2 : (tarefaEstadoSwitch ev s).1.estadoAtual ≠ ESTADO_ERRO := by
        rcases hstep with h | h | h | h | h
        · exact absurd h.1 h1
        · rcases h.2 with h | h <;> rw [h] <;> decide
        · rcases h.2 with h | h <;> rw [h] <;> decide
        · rw [h.2]; decide
        · exact absurd h.1 h2
      obtain ⟨hc, hm⟩ := ih _ hn1 hn2
      have hrel : s.estadoAtual = (tarefaEstadoSwitch ev s).1.estadoAtual
          ∨ arestaAvanco s.estadoAtual (tarefaEstadoSwitch ev s).1.estadoAtual = true := by
        rcases hstep with h | h | h | h | h
        · exact absurd h.1 h1
        · rcases h with ⟨h3, h4 | h4⟩
          · left; rw [h3, h4]
          · right; rw [h3, h4]; rfl
        · rcases h with ⟨h3, h4 | h4⟩
          · left; rw [h3, h4]
          · right; rw [h3, h4]; rfl
        · left; rw [h.1, h.2]
        · exact absurd h.1 h2
      constructor
      · cases evs with
        | nil =>
            simp only [fases, List.chain'_cons, List.chain'_singleton, and_true]
            exact hrel
        | cons ev2 evs2 =>
            simp only [fases, List.chain'_cons]
            refine ⟨hrel, ?_⟩
            simpa only [fases] using hc
      · intro p hp
        simp only [fases, List.mem_cons] at hp
        rcases hp with hp | hp
        · rw [hp]; exact ⟨h1, h2⟩
        · exact hm p hp

theorem fases_cabeca (evs : List Nat) (s : Sistema) :
    ∃ resto, fases evs s = s.estadoAtual :: resto := by
  cases evs with
  | nil => exact ⟨[], rfl⟩
  | cons ev evs => exact ⟨_, rfl⟩

theorem digitalWrite_estadoAtual (pin : Nat) (val : Bool) (s : Sistema) :
    (digitalWrite pin val s).estadoAtual = s.estadoAtual := rfl

theorem notificaEstado_estadoAtual (valor : Nat) (acao : eNotifyAction) (s : Sistema) :
    (notificaEstado valor acao s).estadoAtual = s.estadoAtual := by
  cases acao <;> rfl

theorem callbackMQTT_estadoAtual (topico : String) (payload : List Char) (s : Sistema) :
    (callbackMQTT topico payload s).estadoAtual = s.estadoAtual := by
  simp only [callbackMQTT]
  split_ifs <;> simp [digitalWrite_estadoAtual]

theorem tarefaMQTTIter_estadoAtual (conectado connectOk : Bool)
    (entrada : Option (String × List Char)) (s : Sistema) :
    (tarefaMQTTIter conectado connectOk entrada s).1.estadoAtual = s.estadoAtual := by
  simp only [tarefaMQTTIter]
  cases entrada with
  | none => cases conectado <;> cases connectOk <;> simp [notificaEstado_estadoAtual]
  | some m =>
      obtain ⟨topico, payload⟩ := m
      cases conectado <;> cases connectOk <;>
        simp [callbackMQTT_estadoAtual, notificaEstado_estadoAtual]

theorem tarefaClimaIter_estadoAtual (umidade temperatura : Leitura) (s : Sistema) :
    (tarefaClimaIter umidade temperatura s).1.estadoAtual = s.estadoAtual := by
  simp only [tarefaClimaIter]
  split_ifs <;> rfl

theorem tarefaPIRIter_estadoAtual (pir : Bool) (s : Sistema) :
    (tarefaPIRIter pir s).1.estadoAtual = s.estadoAtual := by
  cases pir <;> rfl

theorem tarefaGasIter_estadoAtual (gas : Int) (s : Sistema) :
    (tarefaGasIter gas s).1.estadoAtual = s.estadoAtual := by
  simp only [tarefaGasIter]
  split_ifs <;> rfl

theorem mensagemDe_aux (payload : List Char) :
    ∀ m : String, payload.foldl (fun m c => m.push c) m = String.mk (m.data ++ payload) := by
  induction payload with
  | nil => intro m; simp
  | cons c cs ih =>
      intro m
      simp only [List.foldl_cons]
      rw [ih]
      simp [String.push]

theorem mensagemDe_eq (payload : List Char) : mensagemDe payload = String.mk payload := by
  simp [mensagemDe, mensagemDe_aux]

theorem ateNul_sem_nul (cs : List Char) (h : Char.ofNat 0 ∉ cs) : ateNul cs = cs := by
  unfold ateNul
  rw [List.takeWhile_eq_self_iff]
  intro c hc
  have : c ≠ Char.ofNat 0 := fun e => h (e ▸ hc)
  simpa using this

theorem arduinoEquals_ON (payload : List Char) :
    arduinoEquals (mensagemDe payload) "ON" = decide (ateNul payload = ['O', 'N']) := by
  rw [mensagemDe_eq]
  have hlit : ateNul ("ON" : String).data = ['O', 'N'] := by decide
  cases payload with
  | nil => decide
  | cons c cs => simp [arduinoEquals, hlit]

theorem publicacoes_append (xs ys : List Chamada) :
    publicacoes (xs ++ ys) = publicacoes xs ++ publicacoes ys := by
  induction xs with
  | nil => rfl
  | cons c cs ih => cases c <;> simp [publicacoes, ih]

theorem gasExec_publicacoes (gs : List Int) :
    ∀ s : Sistema, (∀ x ∈ gs, 2000 < x) →
      publicacoes (gasExec gs s).2
        = List.replicate gs.length ("casa/gas/alerta", "GAS DETECTADO") := by
  induction gs with
  | nil => intro s _; rfl
  | cons g gs ih =>
      intro s hall
      have hg : 2000 < g := hall g (List.mem_cons_self g gs)
      have hrest : ∀ x ∈ gs, 2000 < x := fun x hx => hall x (List.mem_cons_of_mem g hx)
      simp only [gasExec, publicacoes_append, ih _ hrest, List.length_cons,
        List.replicate_succ]
      simp [tarefaGasIter, hg, publicacoes]

theorem arredonda_perto (x : ℚ) (n : Nat) (hx : 0 ≤ x) (h : |x - n| < 1 / 2) :
    arredonda x = n := by
  rw [abs_lt] at h
  obtain ⟨hlo, hhi⟩ := h
  by_cases hge : (n : ℚ) ≤ x
  · have hfl : ⌊x⌋ = (n : Int) := by
      rw [Int.floor_eq_iff]
      constructor
      · exact_mod_cast hge
      · push_cast; linarith
    have hr : x - (n : ℚ) < 1 / 2 := by linarith
    simp only [arredonda, hfl, Int.toNat_ofNat, hr, if_true]
  · have hlt : x < n := not_le.mp hge
    have hn : 1 ≤ n := by
      rcases Nat.eq_zero_or_pos n with h0 | h0
      · subst h0; simp at hlt; linarith
      · exact h0
    obtain ⟨m, rfl⟩ : ∃ m, n = m + 1 := ⟨n - 1, by omega⟩
    push_cast at hlo hhi hlt
    have hfl : ⌊x⌋ = (m : Int) := by
      rw [Int.floor_eq_iff]
      constructor
      · push_cast; linarith
      · push_cast; linarith
    have hr1 : ¬ (x - (m : ℚ) < 1 / 2) := by linarith
    have hr2 : 1 / 2 < x - (m : ℚ) := by linarith
    simp only [arredonda, hfl, Int.toNat_ofNat, hr1, hr2, if_true, if_false]

theorem fmt1_perto (q : ℚ) (a : Int) (h : |q * 10 - a| < 1 / 2) (hs : q < 0 ↔ a < 0) :
    fmt1 (Leitura.valor q) = decimal1 a := by
  have hx : (0 : ℚ) ≤ |q| * 10 := by positivity
  have hab : |(|q| * 10) - ((a.natAbs : Nat) : ℚ)| < 1 / 2 := by
    have h1 : ((a.natAbs : Nat) : ℚ) = |(a : ℚ)| := by
      rw [Nat.cast_natAbs, Int.cast_abs]
    have h2 : |q| * 10 = |q * 10| := by
      rw [abs_mul]; simp
    rw [h1, h2]
    exact lt_of_le_of_lt (abs_abs_sub_abs_le _ _) h
  have hr := arredonda_perto (|q| * 10) a.natAbs hx hab
  simp only [fmt1, decimal1, hr]
  by_cases hq : q < 0
  · simp [hq, hs.mp hq]
  · have ha : ¬ a < 0 := fun c => hq (hs.mpr c)
    simp [hq, ha]

theorem fmt1_decimos (a : Int) : fmt1 (Leitura.valor ((a : ℚ) / 10)) = decimal1 a := by
  apply fmt1_perto
  · have : (a : ℚ) / 10 * 10 - a = 0 := by ring
    rw [this]; norm_num
  · constructor
    · intro h
      have : (a : ℚ) < 0 := by linarith
      exact_mod_cast this
    · intro h
      have : (a : ℚ) < 0 := by exact_mod_cast h
      linarith

theorem switch_bits (e1 e2 : Nat) (s : Sistema)
    (h0 : e1.testBit 0 = e2.testBit 0) (h1 : e1.testBit 1 = e2.testBit 1) :
    tarefaEstadoSwitch e1 s = tarefaEstadoSwitch e2 s := by
  have hw : (e1 &&& EVT_WIFI_OK ≠ 0) = (e2 &&& EVT_WIFI_OK ≠ 0) :=
    propext (by rw [land_EVT_WIFI_OK, land_EVT_WIFI_OK, h0])
  have hm : (e1 &&& EVT_MQTT_OK ≠ 0) = (e2 &&& EVT_MQTT_OK ≠ 0) :=
    propext (by rw [land_EVT_MQTT_OK, land_EVT_MQTT_OK, h1])
  simp only [tarefaEstadoSwitch, hw, hm]

theorem callbackMQTT_forma (topico : String) (payload : List Char) (s : Sistema) :
    callbackMQTT topico payload s = s
      ∨ ∃ pin, (pin = led_sala ∨ pin = led_cozinha ∨ pin = led_quarto)
          ∧ callbackMQTT topico payload s
              = digitalWrite pin (decide (ateNul payload = ['O', 'N'])) s := by
  have hON := arduinoEquals_ON payload
  by_cases h1 : topico = "casa/luz/sala"
  · right
    refine ⟨led_sala, Or.inl rfl, ?_⟩
    subst h1
    have h2 : ¬ ("casa/luz/sala" = "casa/luz,cozinha") := by decide
    have h3 : ¬ ("casa/luz/sala" = "casa/luz/quarto") := by decide
    simp only [callbackMQTT, h2, h3, if_true, if_false, hON]
  · by_cases h2 : topico = "casa/luz,cozinha"
    · right
      refine ⟨led_cozinha, Or.inr (Or.inl rfl), ?_⟩
      subst h2
      have h3 : ¬ ("casa/luz,cozinha" = "casa/luz/quarto") := by decide
      simp only [callbackMQTT, h1, h3, if_true, if_false, hON]
    · by_cases h3 : topico = "casa/luz/quarto"
      · right
        refine ⟨led_quarto, Or.inr (Or.inr rfl), ?_⟩
        subst h3
        have h4 : ¬ ("casa/luz/quarto" = "casa/luz/sala") := by decide
        have h5 : ¬ ("casa/luz/quarto" = "casa/luz,cozinha") := by decide
        simp only [callbackMQTT, h4, h5, if_true, if_false, hON]
      · left
        simp only [callbackMQTT, h1, h2, h3, if_false]

theorem callbackMQTT_inbox (topico : String) (payload : List Char) (s : Sistema) :
    (callbackMQTT topico payload s).notifValor = s.notifValor
      ∧ (callbackMQTT topico payload s).notifPendente = s.notifPendente := by
  rcases callbackMQTT_forma topico payload s with h | ⟨pin, -, h⟩ <;> rw [h] <;>
    exact ⟨rfl, rfl⟩

theorem tarefaMQTTIter_inbox (conectado connectOk : Bool)
    (entrada : Option (String × List Char)) (s : Sistema) :
    (tarefaMQTTIter conectado connectOk entrada s).1.notifValor
        = (if (!conectado && connectOk) = true then
            (notificaEstado EVT_MQTT_OK eNotifyAction.eSetBits s).notifValor
          else s.notifValor)
      ∧ (tarefaMQTTIter conectado connectOk entrada s).1.notifPendente
        = (if (!conectado && connectOk) = true then
            (notificaEstado EVT_MQTT_OK eNotifyAction.eSetBits s).notifPendente
          else s.notifPendente) := by
  cases entrada with
  | none => cases conectado <;> cases connectOk <;> simp [tarefaMQTTIter]
  | some m =>
      obtain ⟨topico, payload⟩ := m
      cases conectado <;> cases connectOk <;>
        simp [tarefaMQTTIter, callbackMQTT_inbox]

/-! ## Claims -/

/-- C1: one iteration of the switch of tarefaEstado implements the table of
section 4.1 exactly: for every state and every drained event word, the next
phase is the one of the table row selected by the current phase and by the
presence of NetworkReady (bit 0) and BrokerReady (bit 1), the calls made are
exactly the directive of that row (none when the row has none, so at most one
call), and nothing else of the state changes. -/
theorem tarefaEstadoSwitch_tabela (eventos : Nat) (s : Sistema) :
    (tarefaEstadoSwitch eventos s).1.estadoAtual
        = (tabela s.estadoAtual (eventos.testBit 0) (eventos.testBit 1)).1
      ∧ (tarefaEstadoSwitch eventos s).2
        = ((tabela s.estadoAtual (eventos.testBit 0) (eventos.testBit 1)).2.map
            Diretiva.chamada).toList
      ∧ (tarefaEstadoSwitch eventos s).2.length ≤ 1
      ∧ (tarefaEstadoSwitch eventos s).1.gpio = s.gpio
      ∧ (tarefaEstadoSwitch eventos s).1.notifValor = s.notifValor
      ∧ (tarefaEstadoSwitch eventos s).1.notifPendente = s.notifPendente := by
  obtain ⟨e, v, p, g⟩ := s
  have hw := land_EVT_WIFI_OK eventos
  have hm := land_EVT_MQTT_OK eventos
  cases e <;> simp only [tarefaEstadoSwitch, tabela]
  · simp [Diretiva.chamada]
  · by_cases h : eventos.testBit 0 = true
    · have h2 := hw.mpr h
      simp [h, h2, Diretiva.chamada]
    · have h2 : ¬ (eventos &&& EVT_WIFI_OK ≠ 0) := fun c => h (hw.mp c)
      simp only [Bool.not_eq_true] at h
      simp [h, h2]
  · by_cases h : eventos.testBit 1 = true
    · have h2 := hm.mpr h
      simp [h, h2]
    · have h2 : ¬ (eventos &&& EVT_MQTT_OK ≠ 0) := fun c => h (hm.mp c)
      simp only [Bool.not_eq_true] at h
      simp [h, h2]
  · simp
  · simp [Diretiva.chamada]

/-- C2: in every run of the state machine alone that starts in phase Starting,
consecutive phases are equal or joined by one of the forward edges
Starting to AwaitingNetwork, AwaitingNetwork to AwaitingBroker, AwaitingBroker
to Operational; after the first wake the phase is never Starting and never
Failed; and a wake in AwaitingNetwork that carries both NetworkReady and
BrokerReady yields AwaitingBroker, not Operational. -/
theorem fases_sem_salto (evs : List Nat) (s : Sistema)
    (h : s.estadoAtual = ESTADO_INICIANDO) :
    List.Chain' (fun a b => a = b ∨ arestaAvanco a b = true) (fases evs s)
      ∧ (∀ p ∈ (fases evs s).tail, p ≠ ESTADO_INICIANDO ∧ p ≠ ESTADO_ERRO)
      ∧ (∀ t : Sistema, t.estadoAtual = ESTADO_WIFI →
          (tarefaEstadoSwitch (EVT_WIFI_OK ||| EVT_MQTT_OK) t).1.estadoAtual = ESTADO_MQTT) := by
  refine ⟨?_, ?_, ?_⟩
  · cases evs with
    | nil => simp [fases]
    | cons ev evs =>
        have h1 : (tarefaEstadoSwitch ev s).1.estadoAtual = ESTADO_WIFI := by
          rcases switch_passo ev s with h2 | h2 | h2 | h2 | h2
          · exact h2.2
          all_goals exact absurd (h.symm.trans h2.1) (by decide)
        obtain ⟨hc, -⟩ := fases_depois evs (tarefaEstadoSwitch ev s).1
          (by rw [h1]; decide) (by rw [h1]; decide)
        obtain ⟨resto, hr⟩ := fases_cabeca evs (tarefaEstadoSwitch ev s).1
        simp only [fases]
        rw [hr] at hc ⊢
        rw [List.chain'_cons]
        refine ⟨?_, hc⟩
        right
        rw [h, h1]
        rfl
  · cases evs with
    | nil => simp [fases]
    | cons ev evs =>
        have h1 : (tarefaEstadoSwitch ev s).1.estadoAtual = ESTADO_WIFI := by
          rcases switch_passo ev s with h2 | h2 | h2 | h2 | h2
          · exact h2.2
          all_goals exact absurd (h.symm.trans h2.1) (by decide)
        obtain ⟨-, hm⟩ := fases_depois evs (tarefaEstadoSwitch ev s).1
          (by rw [h1]; decide) (by rw [h1]; decide)
        simpa only [fases, List.tail_cons] using hm
  · intro t ht
    obtain ⟨e, v, p, g⟩ := t
    simp only at ht
    subst ht
    simp [tarefaEstadoSwitch, EVT_WIFI_OK, EVT_MQTT_OK]

/-- Witness of C2: the run with drained words 0, 3 (NetworkReady and
BrokerReady together), 0, 2 from the power-on state. -/
theorem fases_sem_salto_witness :
    inicial.estadoAtual = ESTADO_INICIANDO
      ∧ fases [0, 3, 0, 2] inicial
        = [ESTADO_INICIANDO, ESTADO_WIFI, ESTADO_MQTT, ESTADO_MQTT, ESTADO_EXECUTANDO]
      ∧ List.Chain' (fun a b => a = b ∨ arestaAvanco a b = true) (fases [0, 3, 0, 2] inicial)
      ∧ (∀ p ∈ (fases [0, 3, 0, 2] inicial).tail, p ≠ ESTADO_INICIANDO ∧ p ≠ ESTADO_ERRO) :=
  ⟨rfl, by decide, (fases_sem_salto [0, 3, 0, 2] inicial rfl).1,
    (fases_sem_salto [0, 3, 0, 2] inicial rfl).2.1⟩

/-- C3 (counterexample): the state after setup and the first wake is
reachable and has phase AwaitingNetwork; an iteration of tarefaWifi whose
association fails (status 4, connect failed) takes it to phase Failed, a
change that is not an edge of the table and is not made by the state machine.
So it is false that every change of phase from a reachable state is a table
edge. -/
theorem tarefaWifi_muda_fase_fora_da_tabela :
    executa [Passo.setupNotifica, Passo.estado] inicial = some aposPrimeiroDespertar
      ∧ Alcancavel aposPrimeiroDespertar
      ∧ aposPrimeiroDespertar.estadoAtual = ESTADO_WIFI
      ∧ passo (Passo.wifi 4) aposPrimeiroDespertar
          = some (tarefaWifiIter 4 aposPrimeiroDespertar)
      ∧ (tarefaWifiIter 4 aposPrimeiroDespertar).1.estadoAtual = ESTADO_ERRO
      ∧ arestaTabela ESTADO_WIFI ESTADO_ERRO = false
      ∧ ¬ (∀ (s : Sistema) (p : Passo) (r : Sistema × List Chamada),
            Alcancavel s → passo p s = some r →
              (r.1.estadoAtual = s.estadoAtual
                ∨ arestaTabela s.estadoAtual r.1.estadoAtual = true)
              ∧ (r.1.estadoAtual ≠ s.estadoAtual → p = Passo.estado)) := by
  have hreach : Alcancavel aposPrimeiroDespertar :=
    ⟨[Passo.setupNotifica, Passo.estado], rfl⟩
  refine ⟨rfl, hreach, rfl, rfl, rfl, rfl, ?_⟩
  intro hall
  have h := (hall aposPrimeiroDespertar (Passo.wifi 4)
    (tarefaWifiIter 4 aposPrimeiroDespertar) hreach rfl).1
  revert h
  decide

/-- C3 (amended): over the step relation of the whole system, from every
state, a step that changes the phase is either a wake of tarefaEstado that
follows one of the four edges of the table (Starting to AwaitingNetwork,
AwaitingNetwork to AwaitingBroker, AwaitingBroker to Operational, Failed to
AwaitingNetwork), or an iteration of tarefaWifi whose association result is
not connected, which sets the phase to Failed. -/
theorem passo_muda_fase (s : Sistema) (p : Passo) (r : Sistema × List Chamada)
    (hp : passo p s = some r) (hd : r.1.estadoAtual ≠ s.estadoAtual) :
    (p = Passo.estado ∧ arestaTabela s.estadoAtual r.1.estadoAtual = true)
      ∨ (∃ resultado, p = Passo.wifi resultado ∧ resultado ≠ WL_CONNECTED
          ∧ r.1.estadoAtual = ESTADO_ERRO) := by
  cases p with
  | setupNotifica =>
      simp only [passo, Option.some.injEq] at hp
      subst hp
      exact absurd (notificaEstado_estadoAtual _ _ s) hd
  | estado =>
      left
      refine ⟨rfl, ?_⟩
      simp only [passo, tarefaEstadoIter] at hp
      split_ifs at hp with hpend
      simp only [Option.some.injEq] at hp
      subst hp
      rcases switch_aresta s.notifValor
        { s with notifValor := s.notifValor &&& (2 ^ 32 - 1 - 0xFFFFFFFF),
                 notifPendente := false } with h | h
      · exact absurd h hd
      · exact h
  | wifi resultado =>
      right
      simp only [passo, Option.some.injEq] at hp
      subst hp
      by_cases hres : resultado = WL_CONNECTED
      · exfalso
        apply hd
        simp [tarefaWifiIter, hres, notificaEstado_estadoAtual]
      · exact ⟨resultado, rfl, hres, by simp [tarefaWifiIter, hres]⟩
  | mqtt conectado connectOk entrada =>
      simp only [passo, Option.some.injEq] at hp
      subst hp
      exact absurd (tarefaMQTTIter_estadoAtual _ _ _ s) hd
  | clima umidade temperatura =>
      simp only [passo, Option.some.injEq] at hp
      subst hp
      exact absurd (tarefaClimaIter_estadoAtual _ _ s) hd
  | pir leitura =>
      simp only [passo, Option.some.injEq] at hp
      subst hp
      exact absurd (tarefaPIRIter_estadoAtual _ s) hd
  | gas leitura =>
      simp only [passo, Option.some.injEq] at hp
      subst hp
      exact absurd (tarefaGasIter_estadoAtual _ s) hd

/-- Witness of C3 (amended): the failed association of tarefaWifi at the
power-on state. -/
theorem passo_muda_fase_witness :
    passo (Passo.wifi 4) inicial = some (tarefaWifiIter 4 inicial)
      ∧ (tarefaWifiIter 4 inicial).1.estadoAtual ≠ inicial.estadoAtual
      ∧ ((Passo.wifi 4 = Passo.estado
          ∧ arestaTabela inicial.estadoAtual (tarefaWifiIter 4 inicial).1.estadoAtual = true)
        ∨ (∃ resultado, Passo.wifi 4 = Passo.wifi resultado ∧ resultado ≠ WL_CONNECTED
            ∧ (tarefaWifiIter 4 inicial).1.estadoAtual = ESTADO_ERRO)) :=
  ⟨rfl, by decide,
    passo_muda_fase inicial (Passo.wifi 4) (tarefaWifiIter 4 inicial) rfl (by decide)⟩

/-- C4: recovery determinism.  For every state (so every phase) in which an
iteration of tarefaWifi finds the association not connected, the phase becomes
Failed; and for every event word of the next wake of the state machine, the
phase after the wake is AwaitingNetwork and the only call made is the
notification of tarefaWifi (begin network association).  The same holds when
the wake is made through the inbox: whatever bits were posted, the wake drains
them, ends in AwaitingNetwork and issues that one directive. -/
theorem recuperacao_deterministica (s : Sistema) (resultado eventos : Nat)
    (h : resultado ≠ WL_CONNECTED) :
    (tarefaWifiIter resultado s).1.estadoAtual = ESTADO_ERRO
      ∧ (tarefaEstadoSwitch eventos (tarefaWifiIter resultado s).1).1.estadoAtual
          = ESTADO_WIFI
      ∧ (tarefaEstadoSwitch eventos (tarefaWifiIter resultado s).1).2
          = [Chamada.xTaskNotify Tarefa.tarefaWifi 0 eNotifyAction.eNoAction]
      ∧ (tarefaEstadoIter
            (notificaEstado eventos eNotifyAction.eSetBits (tarefaWifiIter resultado s).1)).map
          (fun r => (r.1.estadoAtual, r.1.notifValor, r.2))
          = some (ESTADO_WIFI, 0,
              [Chamada.xTaskNotify Tarefa.tarefaWifi 0 eNotifyAction.eNoAction]) := by
  simp [tarefaWifiIter, h, tarefaEstadoSwitch, tarefaEstadoIter, notificaEstado]

/-- Witness of C4: association fails (status 4) while Operational, and the
next wake carries all four signals. -/
theorem recuperacao_deterministica_witness :
    (4 : Nat) ≠ WL_CONNECTED
      ∧ (tarefaEstadoSwitch 15
            (tarefaWifiIter 4 { inicial with estadoAtual := ESTADO_EXECUTANDO }).1).1.estadoAtual
          = ESTADO_WIFI :=
  ⟨by decide,
    (recuperacao_deterministica { inicial with estadoAtual := ESTADO_EXECUTANDO } 4 15
      (by decide)).2.1⟩

/-- C5: end-to-end bring-up.  From phase Starting, the three wakes with
drained words empty, NetworkReady, BrokerReady pass through AwaitingNetwork
and AwaitingBroker and leave the phase Operational, and the calls made are
the notification of tarefaWifi followed by the notification of tarefaMQTT;
no run of fewer than three wakes ends in Operational.  In the whole system,
setup, a wake, a successful association, a wake, a successful broker connect
and a wake take the power-on state to Operational. -/
theorem bringup_tres_despertares (s : Sistema) (h : s.estadoAtual = ESTADO_INICIANDO) :
    (despertares [0, EVT_WIFI_OK, EVT_MQTT_OK] s).1.estadoAtual = ESTADO_EXECUTANDO
      ∧ fases [0, EVT_WIFI_OK, EVT_MQTT_OK] s
          = [ESTADO_INICIANDO, ESTADO_WIFI, ESTADO_MQTT, ESTADO_EXECUTANDO]
      ∧ (despertares [0, EVT_WIFI_OK, EVT_MQTT_OK] s).2
          = [Chamada.xTaskNotify Tarefa.tarefaWifi 0 eNotifyAction.eNoAction,
             Chamada.xTaskNotify Tarefa.tarefaMQTT 0 eNotifyAction.eNoAction]
      ∧ (∀ evs : List Nat, evs.length < 3 →
          (despertares evs s).1.estadoAtual ≠ ESTADO_EXECUTANDO)
      ∧ (executa [Passo.setupNotifica, Passo.estado, Passo.wifi WL_CONNECTED, Passo.estado,
            Passo.mqtt false true none, Passo.estado] inicial).map (fun r => r.estadoAtual)
          = some ESTADO_EXECUTANDO := by
  obtain ⟨e, v, p, g⟩ := s
  simp only at h
  subst h
  refine ⟨?_, ?_, ?_, ?_, ?_⟩
  · simp [despertares, tarefaEstadoSwitch, EVT_WIFI_OK, EVT_MQTT_OK]
  · simp [fases, tarefaEstadoSwitch, EVT_WIFI_OK, EVT_MQTT_OK]
  · simp [despertares, tarefaEstadoSwitch, EVT_WIFI_OK, EVT_MQTT_OK]
  · intro evs hlen
    match evs, hlen with
    | [], _ => simp [despertares]
    | [a], _ => simp [despertares, tarefaEstadoSwitch]
    | [a, b], _ =>
        simp only [despertares, tarefaEstadoSwitch]
        split_ifs <;> simp
  · rfl

/-- Witness of C5: the bring-up from the power-on state. -/
theorem bringup_tres_despertares_witness :
    inicial.estadoAtual = ESTADO_INICIANDO
      ∧ (despertares [0, EVT_WIFI_OK, EVT_MQTT_OK] inicial).1.estadoAtual = ESTADO_EXECUTANDO
      ∧ (despertares [0, EVT_WIFI_OK] inicial).1.estadoAtual ≠ ESTADO_EXECUTANDO :=
  ⟨rfl, (bringup_tres_despertares inicial rfl).1,
    (bringup_tres_despertares inicial rfl).2.2.2.1 [0, EVT_WIFI_OK] (by decide)⟩

/-- C6 (counterexample): a message on the living-room light topic whose
payload is the three bytes O, N, NUL, a payload other than ON, sets the
living-room light to true, because the comparison with the literal stops at
the first NUL byte. -/
theorem callbackMQTT_sala_nul :
    ['O', 'N', Char.ofNat 0] ≠ ['O', 'N']
      ∧ inicial.gpio led_sala = false
      ∧ (callbackMQTT "casa/luz/sala" ['O', 'N', Char.ofNat 0] inicial).gpio led_sala = true
      ∧ ¬ (∀ (payload : List Char) (s : Sistema),
            (callbackMQTT "casa/luz/sala" payload s).gpio led_sala = true
              ↔ payload = ['O', 'N']) := by
  refine ⟨by decide, rfl, by decide, ?_⟩
  intro hall
  have h := (hall ['O', 'N', Char.ofNat 0] inicial).mp (by decide)
  revert h
  decide

/-- C6 (amended): command router.  A message on the living-room light topic
sets the living-room light to true exactly when the payload read as a C
string (its bytes before the first NUL byte, all of them when it has none) is
ON, and to false otherwise; so for every payload without a NUL byte the light
is set to true exactly when the payload is ON (false for OFF, on, ON followed
by a blank, the empty payload); and for every topic that is none of the three
topics the router compares with, the state is unchanged, whatever the
payload. -/
theorem callbackMQTT_sala (payload : List Char) (s : Sistema) :
    ((callbackMQTT "casa/luz/sala" payload s).gpio led_sala = true
        ↔ ateNul payload = ['O', 'N'])
      ∧ ((callbackMQTT "casa/luz/sala" payload s).gpio led_sala = false
        ↔ ateNul payload ≠ ['O', 'N'])
      ∧ (Char.ofNat 0 ∉ payload →
          ((callbackMQTT "casa/luz/sala" payload s).gpio led_sala = true
            ↔ payload = ['O', 'N']))
      ∧ (callbackMQTT "casa/luz/sala" ['O', 'N'] s).gpio led_sala = true
      ∧ (callbackMQTT "casa/luz/sala" ['O', 'F', 'F'] s).gpio led_sala = false
      ∧ (callbackMQTT "casa/luz/sala" ['o', 'n'] s).gpio led_sala = false
      ∧ (callbackMQTT "casa/luz/sala" ['O', 'N', ' '] s).gpio led_sala = false
      ∧ (callbackMQTT "casa/luz/sala" [] s).gpio led_sala = false
      ∧ (∀ topico : String, topico ≠ "casa/luz/sala" → topico ≠ "casa/luz,cozinha" →
          topico ≠ "casa/luz/quarto" → callbackMQTT topico payload s = s) := by
  have key : ∀ pl : List Char,
      (callbackMQTT "casa/luz/sala" pl s).gpio led_sala = decide (ateNul pl = ['O', 'N']) := by
    intro pl
    have h1 : ¬ ("casa/luz/sala" = "casa/luz,cozinha") := by decide
    have h2 : ¬ ("casa/luz/sala" = "casa/luz/quarto") := by decide
    simp only [callbackMQTT, h1, h2, if_false, if_true, digitalWrite, arduinoEquals_ON]
  refine ⟨?_, ?_, ?_, ?_, ?_, ?_, ?_, ?_, ?_⟩
  · rw [key]; simp
  · rw [key]; simp
  · intro hnul
    rw [key, ateNul_sem_nul payload hnul]; simp
  · rw [key]; decide
  · rw [key]; decide
  · rw [key]; decide
  · rw [key]; decide
  · rw [key]; decide
  · intro topico h1 h2 h3
    simp [callbackMQTT, h1, h2, h3]

/-- Witness of C6 (amended): the payload OFF has no NUL byte, so on the
living-room topic the light is true exactly when it is ON; and a message with
payload ON on the topic casa/temp, which the router does not compare with,
leaves the power-on state as it is. -/
theorem callbackMQTT_sala_witness :
    Char.ofNat 0 ∉ ['O', 'F', 'F']
      ∧ ((callbackMQTT "casa/luz/sala" ['O', 'F', 'F'] inicial).gpio led_sala = true
          ↔ ['O', 'F', 'F'] = ['O', 'N'])
      ∧ ("casa/temp" : String) ≠ "casa/luz/sala" ∧ ("casa/temp" : String) ≠ "casa/luz,cozinha"
      ∧ ("casa/temp" : String) ≠ "casa/luz/quarto"
      ∧ callbackMQTT "casa/temp" ['O', 'N'] inicial = inicial :=
  ⟨by decide, (callbackMQTT_sala ['O', 'F', 'F'] inicial).2.2.1 (by decide),
    by decide, by decide, by decide,
    (callbackMQTT_sala ['O', 'N'] inicial).2.2.2.2.2.2.2.2 "casa/temp"
      (by decide) (by decide) (by decide)⟩

/-- C7 (the code at the failing input): the kitchen subtopic casa/luz/cozinha
lies inside the subscribed family casa/luz/#, but a message on it with payload
ON leaves the kitchen light false, because the router compares the topic with
casa/luz,cozinha (a comma for the slash), a topic outside the subscribed
family; no message of the subscribed family changes the kitchen light.  The
living-room and bedroom subtopics lie inside the family and do set their
lights. -/
theorem callbackMQTT_cozinha_virgula :
    casaFiltro filtroAssinado "casa/luz/cozinha" = true
      ∧ (callbackMQTT "casa/luz/cozinha" ['O', 'N'] inicial).gpio led_cozinha = false
      ∧ casaFiltro filtroAssinado "casa/luz,cozinha" = false
      ∧ (callbackMQTT "casa/luz,cozinha" ['O', 'N'] inicial).gpio led_cozinha = true
      ∧ (∀ (topico : String) (payload : List Char) (s : Sistema),
          casaFiltro filtroAssinado topico = true →
            (callbackMQTT topico payload s).gpio led_cozinha = s.gpio led_cozinha)
      ∧ casaFiltro filtroAssinado "casa/luz/sala" = true
      ∧ (callbackMQTT "casa/luz/sala" ['O', 'N'] inicial).gpio led_sala = true
      ∧ casaFiltro filtroAssinado "casa/luz/quarto" = true
      ∧ (callbackMQTT "casa/luz/quarto" ['O', 'N'] inicial).gpio led_quarto = true := by
  refine ⟨by decide, by decide, by decide, by decide, ?_, by decide, by decide, by decide,
    by decide⟩
  intro topico payload s h
  have hne : topico ≠ "casa/luz,cozinha" := by
    rintro rfl
    revert h
    decide
  simp only [callbackMQTT, hne, if_false]
  split_ifs <;> simp [digitalWrite, led_sala, led_cozinha, led_quarto]

/-- C8: motion worker.  In one iteration of tarefaPIR, if the PIR input reads
true then afterwards the three lights are true; if it reads false the state
is unchanged; in both cases motor and buzzer (and the phase) are unchanged,
and no output that was true becomes false. -/
theorem tarefaPIRIter_luzes (s : Sistema) :
    ((tarefaPIRIter true s).1.gpio led_sala = true
        ∧ (tarefaPIRIter true s).1.gpio led_cozinha = true
        ∧ (tarefaPIRIter true s).1.gpio led_quarto = true)
      ∧ (tarefaPIRIter false s).1 = s
      ∧ (∀ pir : Bool, (tarefaPIRIter pir s).1.gpio motor_varal = s.gpio motor_varal
          ∧ (tarefaPIRIter pir s).1.gpio buzzer = s.gpio buzzer
          ∧ (tarefaPIRIter pir s).1.estadoAtual = s.estadoAtual)
      ∧ (∀ (pir : Bool) (pin : Nat), s.gpio pin = true →
          (tarefaPIRIter pir s).1.gpio pin = true) := by
  refine ⟨?_, rfl, ?_, ?_⟩
  · simp [tarefaPIRIter, digitalWrite, led_sala, led_cozinha, led_quarto]
  · intro pir
    cases pir <;>
      simp [tarefaPIRIter, digitalWrite, led_sala, led_cozinha, led_quarto, motor_varal, buzzer]
  · intro pir pin hpin
    cases pir
    · simpa [tarefaPIRIter] using hpin
    · simp only [tarefaPIRIter, digitalWrite, if_true]
      split_ifs <;> simp [hpin]

/-- Witness of C8: with the kitchen light already on and the PIR input
reading true, the kitchen light stays on. -/
theorem tarefaPIRIter_luzes_witness :
    (digitalWrite led_cozinha true inicial).gpio led_cozinha = true
      ∧ (tarefaPIRIter true (digitalWrite led_cozinha true inicial)).1.gpio led_cozinha = true :=
  ⟨by decide,
    (tarefaPIRIter_luzes (digitalWrite led_cozinha true inicial)).2.2.2 true led_cozinha
      (by decide)⟩

/-- C9: gas worker.  In one iteration of tarefaGas, for every reading g and
every prior state, the buzzer is set to true exactly when g is above 2000,
and the messages published are exactly one alert when g is above 2000 and
none otherwise (2001 alerts, 2000 and 1999 do not); for every sequence of
readings all above 2000, the run publishes one alert per reading. -/
theorem tarefaGasIter_alerta (g : Int) (s : Sistema) :
    ((tarefaGasIter g s).1.gpio buzzer = true ↔ 2000 < g)
      ∧ ((tarefaGasIter g s).1.gpio buzzer = false ↔ g ≤ 2000)
      ∧ publicacoes (tarefaGasIter g s).2
          = (if 2000 < g then [("casa/gas/alerta", "GAS DETECTADO")] else [])
      ∧ ((tarefaGasIter 2001 s).1.gpio buzzer = true
          ∧ publicacoes (tarefaGasIter 2001 s).2 = [("casa/gas/alerta", "GAS DETECTADO")])
      ∧ ((tarefaGasIter 2000 s).1.gpio buzzer = false
          ∧ publicacoes (tarefaGasIter 2000 s).2 = [])
      ∧ ((tarefaGasIter 1999 s).1.gpio buzzer = false
          ∧ publicacoes (tarefaGasIter 1999 s).2 = [])
      ∧ (∀ gs : List Int, (∀ x ∈ gs, 2000 < x) →
          publicacoes (gasExec gs s).2
            = List.replicate gs.length ("casa/gas/alerta", "GAS DETECTADO")) := by
  refine ⟨?_, ?_, ?_, ?_, ?_, ?_, fun gs hgs => gasExec_publicacoes gs s hgs⟩
  · by_cases h : 2000 < g <;> simp [tarefaGasIter, h, digitalWrite]
  · by_cases h : 2000 < g
    · simp [tarefaGasIter, h, digitalWrite]
    · simp [tarefaGasIter, h, digitalWrite, not_lt.mp h]
  · by_cases h : 2000 < g <;> simp [tarefaGasIter, h, publicacoes]
  · simp [tarefaGasIter, digitalWrite, publicacoes]
  · simp [tarefaGasIter, digitalWrite, publicacoes]
  · simp [tarefaGasIter, digitalWrite, publicacoes]

/-- Witness of C9: three consecutive readings above the threshold, starting
with the buzzer already on, publish three alerts. -/
theorem tarefaGasIter_alerta_witness :
    (∀ x ∈ [2001, 4095, 3000], (2000 : Int) < x)
      ∧ publicacoes (gasExec [2001, 4095, 3000] (digitalWrite buzzer true inicial)).2
          = List.replicate 3 ("casa/gas/alerta", "GAS DETECTADO") :=
  ⟨by decide,
    (tarefaGasIter_alerta 2001 (digitalWrite buzzer true inicial)).2.2.2.2.2.2
      [2001, 4095, 3000] (by decide)⟩

/-- C10: climate worker.  In one iteration of tarefaClima with a valid
humidity reading h, for every temperature reading (valid or not) and every
prior state, the motor is set to true exactly when h is below 60 and to false
exactly when h is at least 60 (55 gives true, 60 gives false; a humidity of
negative zero gives true); the result for the motor is the same for every
temperature, prior motor state and phase;
exactly one message is published, on the climate topic; no other output pin
and not the phase changes. -/
theorem tarefaClimaIter_motor (h : ℚ) (temperatura : Leitura) (s : Sistema) :
    ((tarefaClimaIter (Leitura.valor h) temperatura s).1.gpio motor_varal = true ↔ h < 60)
      ∧ ((tarefaClimaIter (Leitura.valor h) temperatura s).1.gpio motor_varal = false
          ↔ 60 ≤ h)
      ∧ (∀ (t2 : Leitura) (s2 : Sistema),
          (tarefaClimaIter (Leitura.valor h) t2 s2).1.gpio motor_varal
            = (tarefaClimaIter (Leitura.valor h) temperatura s).1.gpio motor_varal)
      ∧ publicacoes (tarefaClimaIter (Leitura.valor h) temperatura s).2
          = [("casa/clima", payloadClima temperatura (Leitura.valor h))]
      ∧ (∀ pin : Nat, pin ≠ motor_varal →
          (tarefaClimaIter (Leitura.valor h) temperatura s).1.gpio pin = s.gpio pin)
      ∧ (tarefaClimaIter (Leitura.valor h) temperatura s).1.estadoAtual = s.estadoAtual
      ∧ (tarefaClimaIter (Leitura.valor 55) temperatura s).1.gpio motor_varal = true
      ∧ (tarefaClimaIter (Leitura.valor 60) temperatura s).1.gpio motor_varal = false
      ∧ (tarefaClimaIter Leitura.menosZero temperatura s).1.gpio motor_varal = true := by
  have key : ∀ (q : ℚ) (t2 : Leitura) (s2 : Sistema),
      (tarefaClimaIter (Leitura.valor q) t2 s2).1.gpio motor_varal = decide (q < 60) := by
    intro q t2 s2
    by_cases hq : q < 60 <;> simp [tarefaClimaIter, Leitura.menorQue, hq, digitalWrite]
  refine ⟨?_, ?_, ?_, ?_, ?_, tarefaClimaIter_estadoAtual _ _ s, ?_, ?_, ?_⟩
  · rw [key]; simp
  · rw [key]; simp
  · intro t2 s2
    rw [key, key]
  · simp [tarefaClimaIter, publicacoes]
  · intro pin hpin
    simp only [tarefaClimaIter]
    split_ifs <;> simp [digitalWrite, hpin]
  · rw [key]; norm_num
  · rw [key]; norm_num
  · simp [tarefaClimaIter, Leitura.menorQue, digitalWrite]

/-- Witness of C10: a humidity of 55.0 with temperature 22.5 at the power-on
state leaves the light pin 2 as it was (it is not the motor pin) and sets the
motor. -/
theorem tarefaClimaIter_motor_witness :
    led_sala ≠ motor_varal
      ∧ (tarefaClimaIter (Leitura.valor 55) (Leitura.valor 22.5) inicial).1.gpio led_sala
          = inicial.gpio led_sala
      ∧ (tarefaClimaIter (Leitura.valor 55) (Leitura.valor 22.5) inicial).1.gpio motor_varal
          = true :=
  ⟨by decide,
    (tarefaClimaIter_motor 55 (Leitura.valor 22.5) inicial).2.2.2.2.1 led_sala (by decide),
    (tarefaClimaIter_motor 55 (Leitura.valor 22.5) inicial).2.2.2.2.2.2.1⟩

/-- C11 (counterexample): for the reading temperature 22.5 and humidity 55.0
the one message published by an iteration of tarefaClima has the payload
with key umi and no space after its colon, which is not the text with key
humidity that the claim states. -/
theorem payloadClima_chave_umi :
    publicacoes (tarefaClimaIter (Leitura.valor 55) (Leitura.valor 22.5) inicial).2
        = [("casa/clima", "\x7b\"temp\": 22.5, \"umi\":55.0\x7d")]
      ∧ payloadClimaSpec 225 550 = "\x7b\"temp\": 22.5, \"humidity\": 55.0\x7d"
      ∧ payloadClima (Leitura.valor 22.5) (Leitura.valor 55) ≠ payloadClimaSpec 225 550 := by
  have h1 : (22.5 : ℚ) = ((225 : Int) : ℚ) / 10 := by norm_num
  have h2 : (55 : ℚ) = ((550 : Int) : ℚ) / 10 := by norm_num
  have hp : payloadClima (Leitura.valor 22.5) (Leitura.valor 55)
      = "\x7b\"temp\": 22.5, \"umi\":55.0\x7d" := by
    simp only [payloadClima]
    rw [h1, h2, fmt1_decimos, fmt1_decimos]
    decide
  refine ⟨?_, by decide, ?_⟩
  · simp only [tarefaClimaIter, publicacoes, hp]
  · rw [hp]
    decide

/-- C11 (amended): for every temperature and humidity expressible with one
decimal digit (a tenths and b tenths), the one message published by an
iteration of tarefaClima has the payload text with key temp first, a single
space after its colon, the temperature to one decimal, then key umi with no
space after its colon and the humidity to one decimal; the same text results
for every reading within half a tenth of those values (as the nearest floats
are); a reading of negative zero is written -0.0; for the reading
(22.5, 55.0) the payload is exactly the text with temp 22.5 and umi 55.0. -/
theorem payloadClima_formato (a b : Int) (s : Sistema) :
    publicacoes (tarefaClimaIter (Leitura.valor ((b : ℚ) / 10))
          (Leitura.valor ((a : ℚ) / 10)) s).2
        = [("casa/clima",
            "\x7b\"temp\": " ++ decimal1 a ++ ", \"umi\":" ++ decimal1 b ++ "\x7d")]
      ∧ (∀ t h : ℚ, |t * 10 - a| < 1 / 2 → (t < 0 ↔ a < 0) →
          |h * 10 - b| < 1 / 2 → (h < 0 ↔ b < 0) →
          payloadClima (Leitura.valor t) (Leitura.valor h)
            = "\x7b\"temp\": " ++ decimal1 a ++ ", \"umi\":" ++ decimal1 b ++ "\x7d")
      ∧ payloadClima (Leitura.valor 22.5) (Leitura.valor 55)
          = "\x7b\"temp\": 22.5, \"umi\":55.0\x7d"
      ∧ publicacoes (tarefaClimaIter (Leitura.valor ((b : ℚ) / 10)) Leitura.menosZero s).2
          = [("casa/clima", "\x7b\"temp\": -0.0, \"umi\":" ++ decimal1 b ++ "\x7d")]
      ∧ publicacoes (tarefaClimaIter Leitura.menosZero (Leitura.valor ((a : ℚ) / 10)) s).2
          = [("casa/clima", "\x7b\"temp\": " ++ decimal1 a ++ ", \"umi\":-0.0\x7d")]
      ∧ publicacoes (tarefaClimaIter Leitura.menosZero Leitura.menosZero s).2
          = [("casa/clima", "\x7b\"temp\": -0.0, \"umi\":-0.0\x7d")] := by
  refine ⟨?_, ?_, ?_, ?_, ?_, ?_⟩
  · simp only [tarefaClimaIter, publicacoes, payloadClima, fmt1_decimos]
  · intro t h ht hts hh hhs
    simp only [payloadClima, fmt1_perto t a ht hts, fmt1_perto h b hh hhs]
  · have h1 : (22.5 : ℚ) = ((225 : Int) : ℚ) / 10 := by norm_num
    have h2 : (55 : ℚ) = ((550 : Int) : ℚ) / 10 := by norm_num
    simp only [payloadClima]
    rw [h1, h2, fmt1_decimos, fmt1_decimos]
    decide
  · have hz : fmt1 Leitura.menosZero = "-0.0" := rfl
    simp only [tarefaClimaIter, publicacoes, payloadClima, fmt1_decimos, hz]
    rfl
  · have hz : fmt1 Leitura.menosZero = "-0.0" := rfl
    have hfim : ", \"umi\":" ++ "-0.0" ++ "\x7d" = ", \"umi\":-0.0\x7d" := by decide
    simp only [tarefaClimaIter, publicacoes, payloadClima, fmt1_decimos, hz]
    rw [String.append_assoc, String.append_assoc, ← String.append_assoc ", \"umi\":", hfim]
  · have hz : fmt1 Leitura.menosZero = "-0.0" := rfl
    simp only [tarefaClimaIter, publicacoes, payloadClima, hz]
    rfl

/-- Witness of C11 (amended): the rational 22.5 is within half a tenth of
225 tenths and 55 of 550 tenths. -/
theorem payloadClima_formato_witness :
    payloadClima (Leitura.valor (45 / 2)) (Leitura.valor 55)
      = "\x7b\"temp\": " ++ decimal1 225 ++ ", \"umi\":" ++ decimal1 550 ++ "\x7d" :=
  (payloadClima_formato 225 550 inicial).2.1 (45 / 2) 55 (by norm_num) (by norm_num)
    (by norm_num) (by norm_num)

/-- C12 (the code at the failing input): at the power-on state, reachable and
in phase Starting, an iteration of tarefaMQTT that finds the session not
connected issues a broker connect attempt, before any directive of the state
machine; the same holds in every state, whatever the phase.  One consequence:
when the connect succeeds before the wake that consumes NetworkReady, the
BrokerReady bit is drained by that wake and the system is left in
AwaitingBroker with an empty inbox. -/
theorem tarefaMQTT_connect_sem_fase :
    Alcancavel inicial
      ∧ inicial.estadoAtual = ESTADO_INICIANDO
      ∧ passo (Passo.mqtt false false none) inicial
          = some (tarefaMQTTIter false false none inicial)
      ∧ (tarefaMQTTIter false false none inicial).2
          = [Chamada.mqttConnect "ESP32-CASA", Chamada.mqttLoop, Chamada.vTaskDelay 100]
      ∧ (∀ (s : Sistema) (connectOk : Bool) (entrada : Option (String × List Char)),
          Chamada.mqttConnect "ESP32-CASA" ∈ (tarefaMQTTIter false connectOk entrada s).2)
      ∧ (executa [Passo.setupNotifica, Passo.estado, Passo.wifi WL_CONNECTED,
            Passo.mqtt false true none, Passo.estado] inicial).map
          (fun r => (r.estadoAtual, r.notifValor, r.notifPendente))
          = some (ESTADO_MQTT, 0, false) := by
  refine ⟨⟨[], rfl⟩, rfl, rfl, rfl, ?_, rfl⟩
  intro s connectOk entrada
  cases connectOk <;> simp [tarefaMQTTIter]

/-- C13: network association step.  In one iteration of tarefaWifi, for
every state: when the result is connected, the phase is unchanged, the
notification of tarefaEstado becomes pending, and each of the 32 bits of its
inbox is set afterwards exactly when it was set before or is bit 0
(NetworkReady); when the result is anything else, the phase becomes Failed,
the inbox is unchanged and no notification is made; in both cases the output
pins are unchanged and the last call is the delay of 5000 ms, after the call
that begins the association. -/
theorem tarefaWifiIter_passo (resultado : Nat) (s : Sistema) :
    ((tarefaWifiIter WL_CONNECTED s).1.estadoAtual = s.estadoAtual
        ∧ (tarefaWifiIter WL_CONNECTED s).1.notifPendente = true
        ∧ (∀ i : Nat, i < 32 → (tarefaWifiIter WL_CONNECTED s).1.notifValor.testBit i
            = (s.notifValor.testBit i || decide (i = 0)))
        ∧ (tarefaWifiIter WL_CONNECTED s).2
            = [Chamada.wifiBegin "Wokwi-GUEST" "",
               Chamada.xTaskNotify Tarefa.tarefaEstado EVT_WIFI_OK eNotifyAction.eSetBits,
               Chamada.vTaskDelay 5000])
      ∧ (resultado ≠ WL_CONNECTED →
          (tarefaWifiIter resultado s).1.estadoAtual = ESTADO_ERRO
            ∧ (tarefaWifiIter resultado s).1.notifValor = s.notifValor
            ∧ (tarefaWifiIter resultado s).1.notifPendente = s.notifPendente
            ∧ (tarefaWifiIter resultado s).2
                = [Chamada.wifiBegin "Wokwi-GUEST" "", Chamada.vTaskDelay 5000])
      ∧ (tarefaWifiIter resultado s).1.gpio = s.gpio
      ∧ EVT_WIFI_OK = 2 ^ 0 := by
  refine ⟨⟨?_, ?_, ?_, ?_⟩, ?_, ?_, rfl⟩
  · simp [tarefaWifiIter, notificaEstado]
  · simp [tarefaWifiIter, notificaEstado]
  · intro i hi
    have h1 : (1 : Nat).testBit i = decide (i = 0) := by
      cases i with
      | zero => rfl
      | succ j =>
          have := Nat.testBit_two_pow_of_ne (n := 0) (m := j + 1) (by omega)
          simpa using this
    have hv : (tarefaWifiIter WL_CONNECTED s).1.notifValor = (s.notifValor ||| 1) % 2 ^ 32 := rfl
    rw [hv, Nat.testBit_mod_two_pow, Nat.testBit_or, h1]
    simp [hi]
  · simp [tarefaWifiIter]
  · intro h
    simp [tarefaWifiIter, h]
  · by_cases h : resultado = WL_CONNECTED <;> simp [tarefaWifiIter, notificaEstado, h]

/-- Witness of C13: an association that fails (status 4) while BrokerReady is
pending in the inbox leaves the inbox as it was and sets the phase Failed. -/
theorem tarefaWifiIter_passo_witness :
    (4 : Nat) ≠ WL_CONNECTED
      ∧ (tarefaWifiIter 4 (notificaEstado EVT_MQTT_OK eNotifyAction.eSetBits inicial)).1.estadoAtual
          = ESTADO_ERRO
      ∧ (tarefaWifiIter 4 (notificaEstado EVT_MQTT_OK eNotifyAction.eSetBits inicial)).1.notifValor
          = (notificaEstado EVT_MQTT_OK eNotifyAction.eSetBits inicial).notifValor :=
  ⟨by decide,
    ((tarefaWifiIter_passo 4 (notificaEstado EVT_MQTT_OK eNotifyAction.eSetBits inicial)).2.1
      (by decide)).1,
    ((tarefaWifiIter_passo 4 (notificaEstado EVT_MQTT_OK eNotifyAction.eSetBits inicial)).2.1
      (by decide)).2.1⟩

/-- C14: broker session step.  In one iteration of the loop of tarefaMQTT,
for every state and inbound message: when the session is connected the calls
are the pump and the delay only; when it is not connected and the connect
fails, the calls are connect, pump, delay; when it is not connected and the
connect succeeds, the calls are connect, subscribe to the command topic
family, notification of tarefaEstado with BrokerReady, pump, delay, in this
order.  So a connect is attempted exactly when the session is not connected,
BrokerReady is posted (and the family subscribed) exactly when that attempt
succeeds, the pump runs once in every iteration, the phase is never written,
and the inbox is unchanged unless BrokerReady is posted. -/
theorem tarefaMQTTIter_passos (conectado connectOk : Bool)
    (entrada : Option (String × List Char)) (s : Sistema) :
    (tarefaMQTTIter true connectOk entrada s).2 = [Chamada.mqttLoop, Chamada.vTaskDelay 100]
      ∧ (tarefaMQTTIter false false entrada s).2
          = [Chamada.mqttConnect "ESP32-CASA", Chamada.mqttLoop, Chamada.vTaskDelay 100]
      ∧ (tarefaMQTTIter false true entrada s).2
          = [Chamada.mqttConnect "ESP32-CASA", Chamada.mqttSubscribe "casa/luz/#",
             Chamada.xTaskNotify Tarefa.tarefaEstado EVT_MQTT_OK eNotifyAction.eSetBits,
             Chamada.mqttLoop, Chamada.vTaskDelay 100]
      ∧ (Chamada.mqttConnect "ESP32-CASA" ∈ (tarefaMQTTIter conectado connectOk entrada s).2
          ↔ conectado = false)
      ∧ (Chamada.xTaskNotify Tarefa.tarefaEstado EVT_MQTT_OK eNotifyAction.eSetBits
            ∈ (tarefaMQTTIter conectado connectOk entrada s).2
          ↔ (conectado = false ∧ connectOk = true))
      ∧ (Chamada.mqttSubscribe "casa/luz/#" ∈ (tarefaMQTTIter conectado connectOk entrada s).2
          ↔ (conectado = false ∧ connectOk = true))
      ∧ (tarefaMQTTIter conectado connectOk entrada s).2.count Chamada.mqttLoop = 1
      ∧ (tarefaMQTTIter conectado connectOk entrada s).1.estadoAtual = s.estadoAtual
      ∧ (¬ (conectado = false ∧ connectOk = true) →
          (tarefaMQTTIter conectado connectOk entrada s).1.notifValor = s.notifValor
            ∧ (tarefaMQTTIter conectado connectOk entrada s).1.notifPendente = s.notifPendente)
      ∧ ((tarefaMQTTIter false true entrada s).1.notifPendente = true
          ∧ (tarefaMQTTIter false true entrada s).1.notifValor.testBit 1 = true) := by
  have hin := tarefaMQTTIter_inbox conectado connectOk entrada s
  have hin2 := tarefaMQTTIter_inbox false true entrada s
  refine ⟨?_, ?_, ?_, ?_, ?_, ?_, ?_, tarefaMQTTIter_estadoAtual _ _ _ s, ?_, ?_, ?_⟩
  · cases connectOk <;> simp [tarefaMQTTIter]
  · simp [tarefaMQTTIter]
  · simp [tarefaMQTTIter, filtroAssinado]
  · cases conectado <;> cases connectOk <;> simp [tarefaMQTTIter]
  · cases conectado <;> cases connectOk <;> simp [tarefaMQTTIter]
  · cases conectado <;> cases connectOk <;> simp [tarefaMQTTIter, filtroAssinado]
  · cases conectado <;> cases connectOk <;> simp [tarefaMQTTIter]
  · intro hno
    cases conectado <;> cases connectOk <;> simp at hno hin <;> exact hin
  · rw [hin2.2]
    rfl
  · rw [hin2.1]
    have hv : (if (!false && true) = true then
          (notificaEstado EVT_MQTT_OK eNotifyAction.eSetBits s).notifValor
        else s.notifValor) = (s.notifValor ||| 2 ^ 1) % 2 ^ 32 := rfl
    rw [hv, Nat.testBit_mod_two_pow, Nat.testBit_or, Nat.testBit_two_pow_self]
    simp

/-- Witness of C14: with the session connected and a failed-connect input
(never used), an inbound message for the living-room light leaves the inbox of
the power-on state as it was. -/
theorem tarefaMQTTIter_passos_witness :
    ¬ ((true : Bool) = false ∧ (false : Bool) = true)
      ∧ (tarefaMQTTIter true false (some ("casa/luz/sala", ['O', 'N'])) inicial).1.notifValor
          = inicial.notifValor :=
  ⟨by decide,
    ((tarefaMQTTIter_passos true false (some ("casa/luz/sala", ['O', 'N'])) inicial).2.2.2.2.2.2.2.2.1
      (by decide)).1⟩

/-- C15: signal non-interference.  For every state and every two drained
event words that agree on bit 0 (NetworkReady) and bit 1 (BrokerReady), one
iteration of the switch of tarefaEstado gives the same state and the same
calls; so the result is that of the word reduced to its two low bits, and
setting the MotionDetected and GasAlert bits changes nothing. -/
theorem tarefaEstadoSwitch_nao_interferencia (e1 e2 : Nat) (s : Sistema)
    (h0 : e1.testBit 0 = e2.testBit 0) (h1 : e1.testBit 1 = e2.testBit 1) :
    tarefaEstadoSwitch e1 s = tarefaEstadoSwitch e2 s
      ∧ tarefaEstadoSwitch e1 s = tarefaEstadoSwitch (e1 % 4) s
      ∧ tarefaEstadoSwitch (e1 ||| EVT_MOVIMENTO ||| EVT_GAS) s = tarefaEstadoSwitch e1 s := by
  refine ⟨switch_bits e1 e2 s h0 h1, ?_, ?_⟩
  · apply switch_bits
    · have h : (4 : Nat) = 2 ^ 2 := rfl
      rw [h, Nat.testBit_mod_two_pow]
      simp
    · have h : (4 : Nat) = 2 ^ 2 := rfl
      rw [h, Nat.testBit_mod_two_pow]
      simp
  · have h4 : EVT_MOVIMENTO = 2 ^ 2 := rfl
    have h8 : EVT_GAS = 2 ^ 3 := rfl
    apply switch_bits
    · rw [h4, h8, Nat.testBit_or, Nat.testBit_or, Nat.testBit_two_pow_of_ne (by decide),
        Nat.testBit_two_pow_of_ne (by decide)]
      simp
    · rw [h4, h8, Nat.testBit_or, Nat.testBit_or, Nat.testBit_two_pow_of_ne (by decide),
        Nat.testBit_two_pow_of_ne (by decide)]
      simp

/-- Witness of C15: in AwaitingNetwork the words 1 (NetworkReady) and 13
(NetworkReady, MotionDetected, GasAlert) give the same result. -/
theorem tarefaEstadoSwitch_nao_interferencia_witness :
    (1 : Nat).testBit 0 = (13 : Nat).testBit 0
      ∧ (1 : Nat).testBit 1 = (13 : Nat).testBit 1
      ∧ tarefaEstadoSwitch 1 { inicial with estadoAtual := ESTADO_WIFI }
          = tarefaEstadoSwitch 13 { inicial with estadoAtual := ESTADO_WIFI } :=
  ⟨by decide, by decide,
    (tarefaEstadoSwitch_nao_interferencia 1 13 { inicial with estadoAtual := ESTADO_WIFI }
      (by decide) (by decide)).1⟩

/-- C16: command router frame.  For every topic, payload and state, the
handler either leaves the state as it is or makes exactly one write, to one of
the three light pins, of a value that depends on the payload only (whether
its bytes before the first NUL byte are ON); the three compared topics are pairwise distinct; hence at most
one pin changes, every pin that changes is a light and gets that value, and
motor, buzzer, phase and inbox are never changed. -/
theorem callbackMQTT_moldura (topico : String) (payload : List Char) (s : Sistema) :
    (callbackMQTT topico payload s = s
        ∨ ∃ pin, (pin = led_sala ∨ pin = led_cozinha ∨ pin = led_quarto)
            ∧ callbackMQTT topico payload s
                = digitalWrite pin (decide (ateNul payload = ['O', 'N'])) s)
      ∧ (("casa/luz/sala" : String) ≠ "casa/luz,cozinha"
          ∧ ("casa/luz/sala" : String) ≠ "casa/luz/quarto"
          ∧ ("casa/luz,cozinha" : String) ≠ "casa/luz/quarto")
      ∧ (∀ p q : Nat, (callbackMQTT topico payload s).gpio p ≠ s.gpio p →
          (callbackMQTT topico payload s).gpio q ≠ s.gpio q → p = q)
      ∧ (∀ p : Nat, (callbackMQTT topico payload s).gpio p ≠ s.gpio p →
          (p = led_sala ∨ p = led_cozinha ∨ p = led_quarto)
            ∧ (callbackMQTT topico payload s).gpio p = decide (ateNul payload = ['O', 'N']))
      ∧ (callbackMQTT topico payload s).gpio motor_varal = s.gpio motor_varal
      ∧ (callbackMQTT topico payload s).gpio buzzer = s.gpio buzzer
      ∧ (callbackMQTT topico payload s).estadoAtual = s.estadoAtual
      ∧ (callbackMQTT topico payload s).notifValor = s.notifValor
      ∧ (callbackMQTT topico payload s).notifPendente = s.notifPendente := by
  have hforma := callbackMQTT_forma topico payload s
  have hpin : ∀ (pin p : Nat) (v : Bool), (digitalWrite pin v s).gpio p ≠ s.gpio p →
      p = pin ∧ (digitalWrite pin v s).gpio p = v := by
    intro pin p v hne
    by_cases hp : p = pin
    · exact ⟨hp, by simp [digitalWrite, hp]⟩
    · exact absurd (by simp [digitalWrite, hp]) hne
  refine ⟨hforma, ⟨by decide, by decide, by decide⟩, ?_, ?_, ?_, ?_,
    callbackMQTT_estadoAtual topico payload s, (callbackMQTT_inbox topico payload s).1,
    (callbackMQTT_inbox topico payload s).2⟩
  · intro p q hp hq
    rcases hforma with h | ⟨pin, -, h⟩
    · rw [h] at hp; exact absurd rfl hp
    · rw [h] at hp hq
      rw [(hpin pin p _ hp).1, (hpin pin q _ hq).1]
  · intro p hp
    rcases hforma with h | ⟨pin, hpinl, h⟩
    · rw [h] at hp; exact absurd rfl hp
    · rw [h] at hp ⊢
      obtain ⟨h1, h2⟩ := hpin pin p _ hp
      exact ⟨h1 ▸ hpinl, h2⟩
  · rcases hforma with h | ⟨pin, hpinl, h⟩
    · rw [h]
    · rw [h]
      rcases hpinl with h1 | h1 | h1 <;> subst h1 <;>
        simp [digitalWrite, led_sala, led_cozinha, led_quarto, motor_varal]
  · rcases hforma with h | ⟨pin, hpinl, h⟩
    · rw [h]
    · rw [h]
      rcases hpinl with h1 | h1 | h1 <;> subst h1 <;>
        simp [digitalWrite, led_sala, led_cozinha, led_quarto, buzzer]

/-- Witness of C16: with all outputs low, ON on the bedroom topic changes the
bedroom pin, so a pin that changes is that pin. -/
theorem callbackMQTT_moldura_witness :
    (callbackMQTT "casa/luz/quarto" ['O', 'N'] inicial).gpio led_quarto ≠ inicial.gpio led_quarto
      ∧ ((led_quarto = led_sala ∨ led_quarto = led_cozinha ∨ led_quarto = led_quarto)
        ∧ (callbackMQTT "casa/luz/quarto" ['O', 'N'] inicial).gpio led_quarto
            = decide (ateNul ['O', 'N'] = ['O', 'N'])) :=
  ⟨by decide,
    (callbackMQTT_moldura "casa/luz/quarto" ['O', 'N'] inicial).2.2.2.1 led_quarto
      (by decide)⟩

end Bancada
